import Mathlib

/-!
Verification of the medovina honeypot core (connection-acceptance and
plugin-lifecycle runtime) against its natural-language specification.

The Python source is shallowly embedded: each method that a claim touches is
translated into a pure Lean function over an explicit state type.  Exceptions
are modelled with Except, the asyncio stream writer and the logging collaborator
are modelled as pure effects recorded in the result, and Python ints are
modelled as Int (Nat where the source can never go negative).
-/

/-- Model of Python exceptions as they matter to the embedded code:
asyncio.TimeoutError (raised by asyncio.wait_for) versus any other
Exception subclass (carrying its message). -/
inductive PyError where
  | timeoutError : PyError
  | exc : String → PyError
deriving DecidableEq

/-- The per-server mutable state that BaseHoneypotServer.handle_connection
(src/src/core/server.py lines 56-102) reads and writes: the
active-connection counter and the configured ceiling.  Both are Python
ints, modelled as Int. -/
structure ServerState where
  active_connections : Int
  max_connections : Int
deriving DecidableEq

/-- One mutation of self.active_connections, recorded in program order. -/
inductive CounterEvent where
  | inc : CounterEvent
  | dec : CounterEvent
deriving DecidableEq

/-- Observable outcome of one call to handle_connection. -/
structure ConnOutcome where
  /-- server state when the call returns -/
  state : ServerState
  /-- whether self._handle_client was invoked -/
  handler_invoked : Bool
  /-- whether the writer ended closed (close branch of the reject path, or
      the finally block) -/
  writer_closed : Bool
  /-- the increments and decrements applied to active_connections, in order -/
  counter_events : List CounterEvent
  /-- what handle_connection itself returns or raises to the asyncio server
      loop: ok () models a normal return None -/
  result : Except PyError Unit

/-- The try/except block of handle_connection (server.py lines 75-95): the
awaited handler call either returns, raises asyncio.TimeoutError (from
asyncio.wait_for), or raises an Exception; both except clauses log and
fall through, so the block as a whole returns normally in every case. -/
def run_with_excepts (handlerRun : Except PyError Unit) : Except PyError Unit :=
  match handlerRun with
  | Except.ok _ => Except.ok ()
  | Except.error PyError.timeoutError => Except.ok ()
  | Except.error (PyError.exc _) => Except.ok ()

/-- BaseHoneypotServer.handle_connection (server.py lines 56-102).
The argument handlerRun is the outcome of
await asyncio.wait_for(self._handle_client(...), timeout=self.timeout):
ok () when the handler returned within the timeout, error timeoutError
when wait_for timed out, error (exc m) when the handler raised.
Writer close / wait_closed and the log calls are collaborator effects
modelled as fields of the outcome. -/
def handle_connection (st : ServerState) (handlerRun : Except PyError Unit) :
    ConnOutcome :=
  -- self.active_connections += 1, then: if self.active_connections > self.max_connections
  if st.active_connections + 1 > st.max_connections then
    -- limit exceeded: log warning, close writer, self.active_connections -= 1, return
    { state := { st with active_connections := st.active_connections + 1 - 1 }
      handler_invoked := false
      writer_closed := true
      counter_events := [CounterEvent.inc, CounterEvent.dec]
      result := Except.ok () }
  else
    -- try: await wait_for(self._handle_client ...) / except TimeoutError /
    -- except Exception / finally: close writer if open, self.active_connections -= 1, log
    { state := { st with active_connections := st.active_connections + 1 - 1 }
      handler_invoked := true
      writer_closed := true
      counter_events := [CounterEvent.inc, CounterEvent.dec]
      result := run_with_excepts handlerRun }

/-- Sequential composition of completed handle_connection calls on one
server: models a sequence of connection attempts each running to
completion, threading the counter state. -/
def run_connections (st : ServerState) (rs : List (Except PyError Unit)) :
    ServerState :=
  rs.foldl (fun s r => (handle_connection s r).state) st

theorem handle_connection_state_active (st : ServerState)
    (r : Except PyError Unit) :
    (handle_connection st r).state.active_connections = st.active_connections := by
  unfold handle_connection
  split <;> simp

theorem run_connections_active (st : ServerState)
    (rs : List (Except PyError Unit)) :
    (run_connections st rs).active_connections = st.active_connections := by
  induction rs generalizing st with
  | nil => rfl
  | cons r rs ih =>
      show (run_connections (handle_connection st r).state rs).active_connections = _
      rw [ih, handle_connection_state_active]

/-- C1.  If the active-connection count before the accept is at least
max_connections, handle_connection closes the connection without invoking
_handle_client and the counter is restored to its pre-accept value. -/
theorem limit_reject_closes_without_handler (st : ServerState)
    (r : Except PyError Unit)
    (h : st.max_connections ≤ st.active_connections) :
    (handle_connection st r).handler_invoked = false ∧
    (handle_connection st r).writer_closed = true ∧
    (handle_connection st r).state.active_connections = st.active_connections := by
  have hgt : st.active_connections + 1 > st.max_connections := by omega
  unfold handle_connection
  simp [hgt]

/-- Witness for C1 at a concrete over-limit state. -/
theorem limit_reject_closes_without_handler_witness :
    (1 : Int) ≤ 1 ∧
    ((handle_connection ⟨1, 1⟩ (Except.ok ())).handler_invoked = false ∧
     (handle_connection ⟨1, 1⟩ (Except.ok ())).writer_closed = true ∧
     (handle_connection ⟨1, 1⟩ (Except.ok ())).state.active_connections = 1) :=
  ⟨by decide, limit_reject_closes_without_handler ⟨1, 1⟩ (Except.ok ()) (by decide)⟩

/-- C2.  Every call to handle_connection performs exactly one increment
followed by exactly one decrement of active_connections, on every path
(rejection, normal return, handler exception, timeout), so its net effect
on the counter is zero; consequently any sequence of completed connection
attempts starting from counter 0 returns the counter to 0. -/
theorem counter_balanced_on_every_path (st : ServerState)
    (r : Except PyError Unit) (K : Int) (rs : List (Except PyError Unit)) :
    (handle_connection st r).counter_events = [CounterEvent.inc, CounterEvent.dec] ∧
    (handle_connection st r).state.active_connections = st.active_connections ∧
    (run_connections ⟨0, K⟩ rs).active_connections = 0 := by
  refine ⟨?_, handle_connection_state_active st r, ?_⟩
  · unfold handle_connection
    split <;> simp
  · exact run_connections_active ⟨0, K⟩ rs

/-- C3.  Whatever error the awaited handler call produces — a raised
exception or an asyncio.wait_for timeout — handle_connection catches it,
closes the connection, and itself returns normally: no error propagates
to the asyncio server loop. -/
theorem handler_errors_never_escape (st : ServerState) (e : PyError) :
    (handle_connection st (Except.error e)).result = Except.ok () ∧
    (handle_connection st (Except.error e)).writer_closed = true := by
  unfold handle_connection
  cases e <;> split <;> simp [run_with_excepts]

deriving instance DecidableEq for Except

/-- Behaviour of one enabled plugin entry as PluginManager.start_all_plugins
(src/src/core/plugin.py lines 167-183) observes it: whether
create_plugin succeeds (class found and constructor returns), and what
await plugin.start() does if it is reached. -/
structure PluginBehavior where
  name : String
  /-- create_plugin returns a plugin (it returns None, after catching the
      constructor exception or failing the class lookup, otherwise) -/
  creation_ok : Bool
  /-- outcome of await plugin.start() -/
  start_result : Except PyError Unit
deriving DecidableEq

/-- What start_all_plugins did for one enabled plugin entry. -/
inductive StartEvent where
  /-- create_plugin returned None: warning printed, no start attempted -/
  | createFailed : String → StartEvent
  /-- plugin.start() raised: error printed, plugin stays with running = false -/
  | startErr : String → StartEvent
  /-- plugin.start() returned: plugin.running set to true -/
  | started : String → StartEvent
deriving DecidableEq

/-- One iteration of the start_all_plugins loop body (plugin.py lines
172-183): create the plugin, and if that succeeded try to start it,
catching any exception.  Returns the entry added to the manager's
plugins dict (name, running flag) — create_plugin inserts the instance
into self.plugins before start() is attempted — and the event. -/
def start_one (b : PluginBehavior) : Option (String × Bool) × StartEvent :=
  if b.creation_ok then
    match b.start_result with
    | Except.ok _ => (some (b.name, true), StartEvent.started b.name)
    | Except.error _ => (some (b.name, false), StartEvent.startErr b.name)
  else (none, StartEvent.createFailed b.name)

/-- PluginManager.start_all_plugins (plugin.py lines 167-183): the for loop
over the enabled-plugin entries, accumulating the plugins dict (as an
association list name → running flag) and the per-plugin events. -/
def start_all_plugins : List PluginBehavior → List (String × Bool) × List StartEvent
  | [] => ([], [])
  | b :: rest =>
      let r := start_one b
      let rr := start_all_plugins rest
      (r.1.toList ++ rr.1, r.2 :: rr.2)

/-- True when this entry's creation or start raised an error. -/
def plugin_fails (b : PluginBehavior) : Bool :=
  !b.creation_ok ||
    (match b.start_result with
     | Except.ok _ => false
     | Except.error _ => true)

theorem start_all_plugins_events_map (cfgs : List PluginBehavior) :
    (start_all_plugins cfgs).2 = cfgs.map (fun b => (start_one b).2) := by
  induction cfgs with
  | nil => rfl
  | cons b rest ih => simp [start_all_plugins, ih]

theorem start_all_plugins_events_length (cfgs : List PluginBehavior) :
    (start_all_plugins cfgs).2.length = cfgs.length := by
  rw [start_all_plugins_events_map]; simp

/-- C4.  start_all_plugins starts each enabled plugin independently: even
when entry j fails (creation or start raises), every other entry i gets
exactly the event its own behaviour dictates — in particular its creation
and start are still attempted — and start_all_plugins itself returns
normally with one event per entry. -/
theorem start_all_plugins_failure_isolation (cfgs : List PluginBehavior)
    (i j : Fin cfgs.length) (hj : plugin_fails (cfgs.get j) = true)
    (hij : i ≠ j) :
    (start_all_plugins cfgs).2.length = cfgs.length ∧
    (start_all_plugins cfgs).2[i.1]? = some (start_one (cfgs.get i)).2 := by
  refine ⟨start_all_plugins_events_length cfgs, ?_⟩
  rw [start_all_plugins_events_map]
  simp [List.getElem?_map, List.getElem?_eq_getElem i.2]

/-- Witness for C4: two plugins, the second fails to start, the first is
still created and started. -/
theorem start_all_plugins_failure_isolation_witness :
    plugin_fails (([⟨"ssh", true, Except.ok ()⟩,
        ⟨"ftp", true, Except.error (PyError.exc "port in use")⟩] :
        List PluginBehavior).get ⟨1, by decide⟩) = true ∧
    (start_all_plugins [⟨"ssh", true, Except.ok ()⟩,
        ⟨"ftp", true, Except.error (PyError.exc "port in use")⟩]).2.length = 2 ∧
    (start_all_plugins [⟨"ssh", true, Except.ok ()⟩,
        ⟨"ftp", true, Except.error (PyError.exc "port in use")⟩]).2[0]? =
      some (start_one (([⟨"ssh", true, Except.ok ()⟩,
        ⟨"ftp", true, Except.error (PyError.exc "port in use")⟩] :
        List PluginBehavior).get ⟨0, by decide⟩)).2 :=
  ⟨by decide,
   start_all_plugins_failure_isolation
     [⟨"ssh", true, Except.ok ()⟩,
      ⟨"ftp", true, Except.error (PyError.exc "port in use")⟩]
     ⟨0, by decide⟩ ⟨1, by decide⟩ (by decide) (by decide)⟩

/-- The plugins dict as UnifiedHoneypot.start reads it back after
start_all_plugins (src/src/main.py line 49: get_all_plugins returns
self.plugins, i.e. every plugin that was created, started or not). -/
def get_all_plugins (cfgs : List PluginBehavior) : List (String × Bool) :=
  (start_all_plugins cfgs).1

/-- UnifiedHoneypot.start, lines 48-54 of src/src/main.py: after
start_all_plugins the startup aborts (early return, never reaching the
heartbeat loop) if and only if the plugins dict is empty
(the code reads: if not active_plugins: ... return). -/
def startup_aborts (cfgs : List PluginBehavior) : Bool :=
  (get_all_plugins cfgs).isEmpty

/-- Number of plugins whose running flag ended true after start_all. -/
def running_plugin_count (cfgs : List PluginBehavior) : Nat :=
  ((get_all_plugins cfgs).filter (fun p => p.2)).length

/-- C5.  Evaluation of the startup check at the failing input: a single
enabled plugin whose constructor succeeds but whose start() raises ends
with zero plugins running, yet the plugins dict is non-empty, so
UnifiedHoneypot.start does not abort — it proceeds to the heartbeat loop.
The code comment at main.py line 48 says the check tests whether any
plugin actually started successfully, but the check only tests whether
any plugin was created. -/
theorem startup_check_misses_start_failures :
    running_plugin_count
        [⟨"ssh", true, Except.error (PyError.exc "bind failed")⟩] = 0 ∧
    startup_aborts
        [⟨"ssh", true, Except.error (PyError.exc "bind failed")⟩] = false := by
  decide

/-- One plugin as PluginManager.stop_all_plugins (plugin.py lines 185-194)
observes it: its running flag and what await plugin.stop() does when
invoked. -/
structure PluginStopState where
  name : String
  running : Bool
  stop_result : Except PyError Unit
deriving DecidableEq

/-- True when an awaited call returned normally. -/
def call_ok : Except PyError Unit → Bool
  | Except.ok _ => true
  | Except.error _ => false

/-- One iteration of the stop_all_plugins loop body (plugin.py lines
187-194): if plugin.running, try await plugin.stop(); on success set
plugin.running = False; on exception print the error and continue —
note that the assignment running = False is inside the try, after the
await, so it is skipped when stop() raises. -/
def stop_one (p : PluginStopState) : PluginStopState :=
  if p.running then
    match p.stop_result with
    | Except.ok _ => { p with running := false }
    | Except.error _ => p
  else p

/-- PluginManager.stop_all_plugins (plugin.py lines 185-194): the loop over
self.plugins.values(); each plugin is visited and mutated independently. -/
def stop_all_plugins (ps : List PluginStopState) : List PluginStopState :=
  ps.map stop_one

/-- C6 counterexample.  A running plugin whose stop() raises does not end
with running = false: stop_all_plugins leaves it marked running, so the
claim that a stopped plugin always ends in the Stopped state is false on
the code. -/
theorem stop_error_leaves_plugin_running :
    ¬ ((stop_all_plugins
          [⟨"ssh", true, Except.error (PyError.exc "listener close failed")⟩]).all
        (fun q => q.running == false) = true) := by
  decide

/-- C6 amended.  stop_all_plugins visits every plugin, and a plugin on
which stop() is invoked (running = true) ends with running = false
exactly when its stop() returned normally: a stop() error is caught and
logged, the loop continues, but the plugin stays marked running. -/
theorem stop_all_plugins_running_flag (ps : List PluginStopState)
    (i : Fin ps.length) :
    (stop_all_plugins ps)[i.1]? = some (stop_one (ps.get i)) ∧
    (stop_one (ps.get i)).running =
      ((ps.get i).running && !(call_ok (ps.get i).stop_result)) := by
  constructor
  · simp [stop_all_plugins, List.getElem?_map, List.getElem?_eq_getElem i.2]
  · unfold stop_one call_ok
    cases h : (ps.get i).stop_result <;> split <;> simp_all

/-- Model of the asyncio server handle returned by asyncio.start_server.
close() marks it closing and releases the listening socket; calling
close() on an already-closed server is a no-op (asyncio semantics), so
the socket is released at most once. -/
structure AsyncioServer where
  closed : Bool
  /-- number of times the listening socket was actually released -/
  socket_releases : Nat
deriving DecidableEq

/-- asyncio server close(): releases the socket only on the first call. -/
def server_close (h : AsyncioServer) : AsyncioServer :=
  if h.closed then h
  else { closed := true, socket_releases := h.socket_releases + 1 }

/-- The fields of BaseHoneypotServer that its stop() (server.py lines
47-54) touches: self.server (None until start() succeeds; never reset to
None by stop()) and the thread-pool executor's shutdown flag
(Executor.shutdown is idempotent). -/
structure BaseServerState where
  server : Option AsyncioServer
  executor_shutdown : Bool
deriving DecidableEq

/-- BaseHoneypotServer.stop (server.py lines 47-54): if self.server is
set, close it and await wait_closed; then shut the executor down. -/
def base_server_stop (st : BaseServerState) : BaseServerState :=
  match st.server with
  | some h => { server := some (server_close h), executor_shutdown := true }
  | none => { st with executor_shutdown := true }

/-- SSHHoneypotPlugin.stop (ssh_server.py lines 119-122): logs and
delegates to the underlying BaseHoneypotServer.stop. -/
def ssh_plugin_stop (st : BaseServerState) : BaseServerState :=
  base_server_stop st

/-- C7.  Stopping an already-stopped plugin is a no-op: a second call to
stop() returns normally (the function is total — no branch raises) and
leaves the state exactly as the first call left it; in particular the
listening socket is not released a second time. -/
theorem ssh_plugin_stop_idempotent (st : BaseServerState) :
    ssh_plugin_stop (ssh_plugin_stop st) = ssh_plugin_stop st := by
  unfold ssh_plugin_stop base_server_stop
  cases st.server with
  | none => rfl
  | some h =>
      simp only [server_close]
      split <;> simp

/-- The datagrams and sender address that HoneypotUDPProtocol receives. -/
structure UdpDatagram where
  data : List Nat
  addr : String × Nat
deriving DecidableEq

/-- What datagram_received did for one datagram. -/
inductive UdpEvent where
  /-- handle_datagram returned normally -/
  | handled : UdpEvent
  /-- handle_datagram raised: the except clause logged the error -/
  | errorLogged : PyError → UdpEvent
deriving DecidableEq

/-- HoneypotUDPProtocol.datagram_received (server.py lines 181-186):
dispatches the datagram to the server's handle_datagram inside
try/except Exception, logging on error; it always returns normally. -/
def datagram_received (handle_datagram : UdpDatagram → Except PyError Unit)
    (d : UdpDatagram) : UdpEvent :=
  match handle_datagram d with
  | Except.ok _ => UdpEvent.handled
  | Except.error e => UdpEvent.errorLogged e

/-- The transport's receive loop: each received datagram is dispatched to
datagram_received in order. -/
def receive_loop (handle_datagram : UdpDatagram → Except PyError Unit) :
    List UdpDatagram → List UdpEvent
  | [] => []
  | d :: ds => datagram_received handle_datagram d ::
      receive_loop handle_datagram ds

theorem receive_loop_map (h : UdpDatagram → Except PyError Unit)
    (ds : List UdpDatagram) :
    receive_loop h ds = ds.map (datagram_received h) := by
  induction ds with
  | nil => rfl
  | cons d ds ih => simp [receive_loop, ih]

/-- C8.  An exception raised by handle_datagram is caught inside
datagram_received and only logged — datagram_received returns normally —
so every datagram in the received sequence, including those after a bad
one, is still dispatched to handle_datagram. -/
theorem bad_datagram_does_not_stop_receives
    (h : UdpDatagram → Except PyError Unit) (ds : List UdpDatagram)
    (i : Fin ds.length) (d : UdpDatagram) (e : PyError)
    (hd : h d = Except.error e) :
    datagram_received h d = UdpEvent.errorLogged e ∧
    (receive_loop h ds)[i.1]? = some (datagram_received h (ds.get i)) := by
  constructor
  · unfold datagram_received
    rw [hd]
  · rw [receive_loop_map]
    simp [List.getElem?_map, List.getElem?_eq_getElem i.2]

/-- Witness for C8: a handler that raises on empty datagrams; the third
datagram is still dispatched although the second raised. -/
theorem bad_datagram_does_not_stop_receives_witness :
    ((fun d : UdpDatagram =>
        if d.data.isEmpty then Except.error (PyError.exc "bad datagram")
        else Except.ok ()) ⟨[], ("10.0.0.1", 9)⟩ =
      Except.error (PyError.exc "bad datagram")) ∧
    (datagram_received
        (fun d : UdpDatagram =>
          if d.data.isEmpty then Except.error (PyError.exc "bad datagram")
          else Except.ok ()) ⟨[], ("10.0.0.1", 9)⟩ =
        UdpEvent.errorLogged (PyError.exc "bad datagram") ∧
      (receive_loop
          (fun d : UdpDatagram =>
            if d.data.isEmpty then Except.error (PyError.exc "bad datagram")
            else Except.ok ())
          [⟨[1], ("10.0.0.1", 9)⟩, ⟨[], ("10.0.0.1", 9)⟩,
           ⟨[2], ("10.0.0.1", 9)⟩])[2]? =
        some (datagram_received
          (fun d : UdpDatagram =>
            if d.data.isEmpty then Except.error (PyError.exc "bad datagram")
            else Except.ok ())
          (([⟨[1], ("10.0.0.1", 9)⟩, ⟨[], ("10.0.0.1", 9)⟩,
             ⟨[2], ("10.0.0.1", 9)⟩] : List UdpDatagram).get ⟨2, by decide⟩))) :=
  ⟨by decide,
   bad_datagram_does_not_stop_receives
     (fun d : UdpDatagram =>
       if d.data.isEmpty then Except.error (PyError.exc "bad datagram")
       else Except.ok ())
     [⟨[1], ("10.0.0.1", 9)⟩, ⟨[], ("10.0.0.1", 9)⟩, ⟨[2], ("10.0.0.1", 9)⟩]
     ⟨2, by decide⟩ ⟨[], ("10.0.0.1", 9)⟩ (PyError.exc "bad datagram")
     (by decide)⟩

/-- True when b is a UTF-8 continuation byte (0x80..0xbf). -/
def utf8_cont (b : Nat) : Bool :=
  0x80 ≤ b && b ≤ 0xbf

/-- Model of one step of CPython's strict UTF-8 decoder (RFC 3629): given
the remaining bytes, returns the code point at the front and the number
of bytes it occupies, or none when the front is not a well-formed
sequence (stray continuation byte, truncated sequence, overlong form,
surrogate, or value above U+10FFFF). -/
def utf8_step : List Nat → Option (Nat × Nat)
  | [] => none
  | b :: rest =>
    if b ≤ 0x7f then some (b, 1)
    else if 0xc2 ≤ b && b ≤ 0xdf then
      match rest with
      | c1 :: _ =>
          if utf8_cont c1 then some ((b - 0xc0) * 0x40 + (c1 - 0x80), 2)
          else none
      | _ => none
    else if 0xe0 ≤ b && b ≤ 0xef then
      match rest with
      | c1 :: c2 :: _ =>
          if ((if b == 0xe0 then 0xa0 else 0x80) ≤ c1 &&
              c1 ≤ (if b == 0xed then 0x9f else 0xbf)) && utf8_cont c2 then
            some ((b - 0xe0) * 0x1000 + (c1 - 0x80) * 0x40 + (c2 - 0x80), 3)
          else none
      | _ => none
    else if 0xf0 ≤ b && b ≤ 0xf4 then
      match rest with
      | c1 :: c2 :: c3 :: _ =>
          if ((if b == 0xf0 then 0x90 else 0x80) ≤ c1 &&
              c1 ≤ (if b == 0xf4 then 0x8f else 0xbf)) &&
              utf8_cont c2 && utf8_cont c3 then
            some ((b - 0xf0) * 0x40000 + (c1 - 0x80) * 0x1000 +
              (c2 - 0x80) * 0x40 + (c3 - 0x80), 4)
          else none
      | _ => none
    else none

/-- Fuel-bounded validity scan; fuel bounds the number of decoded code
points, and each code point consumes at least one byte, so fuel equal to
the byte count always suffices. -/
def utf8_valid_fuel : Nat → List Nat → Bool
  | 0, l => l.isEmpty
  | _ + 1, [] => true
  | n + 1, l =>
      match utf8_step l with
      | some (_, k) => utf8_valid_fuel n (l.drop k)
      | none => false

/-- Model of Python bytes.decode('utf-8') in its default strict mode: true
exactly when decoding succeeds, false when it raises UnicodeDecodeError. -/
def utf8_valid (l : List Nat) : Bool :=
  utf8_valid_fuel l.length l

/-- Fuel-bounded lenient decode (errors='ignore'): well-formed sequences
decode to their code point, bytes that do not start one are skipped. -/
def utf8_decode_ignore_fuel : Nat → List Nat → List Nat
  | 0, _ => []
  | _ + 1, [] => []
  | n + 1, l@(_ :: rest) =>
      match utf8_step l with
      | some (c, k) => c :: utf8_decode_ignore_fuel n (l.drop k)
      | none => utf8_decode_ignore_fuel n rest

/-- Model of Python bytes.decode('utf-8', errors='ignore'): never raises,
drops undecodable bytes. -/
def utf8_decode_ignore (l : List Nat) : List Nat :=
  utf8_decode_ignore_fuel l.length l

/-- Model of str.lower() on the decoded code points, restricted to the
ASCII range, which is all the subsequent substring checks ever match
against (the search keywords are ASCII). -/
def ascii_lower (cs : List Nat) : List Nat :=
  cs.map (fun c => if 65 ≤ c ∧ c ≤ 90 then c + 32 else c)

/-- Code points of an ASCII keyword literal. -/
def str_codes (s : String) : List Nat :=
  s.toList.map Char.toNat

/-- True when the second list begins with the first. -/
def begins_with (needle l : List Nat) : Bool :=
  match needle, l with
  | [], _ => true
  | _ :: _, [] => false
  | a :: ns, b :: bs => a == b && begins_with ns bs

/-- Model of the Python in operator on text: the needle occurs as a
contiguous run inside the haystack. -/
def occurs_in (needle : List Nat) : List Nat → Bool
  | [] => needle.isEmpty
  | b :: rest => begins_with needle (b :: rest) || occurs_in needle rest

/-- An AttackRecord handed to the plugin's log_attack, tagged by which
call site in the SSH handler produced it, with the raw payload bytes. -/
inductive SSHAttack where
  /-- ssh_server.py lines 37-42: the client-version record logged for the
      first non-empty read -/
  | clientVersion : List Nat → SSHAttack
  /-- ssh_server.py lines 74-80: attack_type authentication_attempt -/
  | authenticationAttempt : List Nat → SSHAttack
deriving DecidableEq

/-- SSHConnectionHandler._process_ssh_message (ssh_server.py lines 60-96):
ignores packets shorter than 6 bytes; otherwise lowercases the lenient
UTF-8 decode of the data and logs an authentication_attempt record when
the userauth-request keyword appears (inside the userauth/password
branch).  The decode uses errors='ignore', so the except
UnicodeDecodeError branch (lines 88-96) is unreachable; the disconnect
message written afterwards is a collaborator effect not tracked here. -/
def process_ssh_message (data : List Nat) : List SSHAttack :=
  if data.length < 6 then []
  else
    let data_str := ascii_lower (utf8_decode_ignore data)
    if occurs_in (str_codes "userauth") data_str ||
        occurs_in (str_codes "password") data_str then
      if occurs_in (str_codes "userauth-request") data_str then
        [SSHAttack.authenticationAttempt data]
      else []
    else []

/-- What one iteration's await asyncio.wait_for(self.reader.read(1024),
timeout=30.0) produced: data bytes ([] models the empty read at EOF) or
an asyncio.TimeoutError. -/
inductive ReadEvent where
  | data : List Nat → ReadEvent
  | timedOut : ReadEvent
deriving DecidableEq

/-- The while True loop of SSHConnectionHandler.handle_connection
(ssh_server.py lines 45-55): read with a 30 s timeout, break on timeout
or empty read, otherwise process the chunk; an exhausted event list
models the connection delivering nothing more (EOF on the next read). -/
def ssh_loop : List ReadEvent → List SSHAttack
  | [] => []
  | ReadEvent.timedOut :: _ => []
  | ReadEvent.data [] :: _ => []
  | ReadEvent.data bs :: rest => process_ssh_message bs ++ ssh_loop rest

/-- SSHConnectionHandler.handle_connection (ssh_server.py lines 26-58),
returning the records passed to the plugin's log_attack in order.  The
banner write and drain are collaborator effects not tracked here.
firstRead is what await self.reader.read(1024) returned ([] models EOF);
if it is non-empty the code builds the client-version record, whose
payload field calls client_version.decode() — the strict decode — before
log_attack runs: when the bytes are not valid UTF-8 that call raises
UnicodeDecodeError, the except Exception clause at line 57 catches it,
and the handler returns having logged nothing. -/
def ssh_handle_connection (firstRead : List Nat) (loopReads : List ReadEvent) :
    List SSHAttack :=
  if firstRead.isEmpty then ssh_loop loopReads
  else if utf8_valid firstRead then
    SSHAttack.clientVersion firstRead :: ssh_loop loopReads
  else []

/-- C9 counterexample.  An accepted connection whose client sends the
single non-empty chunk 0xff produces no AttackRecord at all: the strict
decode of the client version raises before log_attack is called. -/
theorem non_utf8_first_chunk_logs_nothing :
    ([0xff] : List Nat) ≠ [] ∧ ssh_handle_connection [0xff] [] = [] := by
  decide

/-- C9 amended.  If the client's first non-empty chunk is valid UTF-8,
the handler logs at least one AttackRecord (the client-version record)
before the connection closes, whatever the rest of the traffic does. -/
theorem utf8_first_chunk_logs_attack (firstRead : List Nat)
    (loopReads : List ReadEvent) (h1 : firstRead ≠ [])
    (h2 : utf8_valid firstRead = true) :
    1 ≤ (ssh_handle_connection firstRead loopReads).length := by
  unfold ssh_handle_connection
  simp only [List.isEmpty_iff, h1, if_false, h2, if_true]
  simp

/-- Witness for C9 (amended) at a concrete SSH client-version chunk. -/
theorem utf8_first_chunk_logs_attack_witness :
    (str_codes "SSH-2.0-OpenSSH_8.9" ≠ [] ∧
      utf8_valid (str_codes "SSH-2.0-OpenSSH_8.9") = true) ∧
    1 ≤ (ssh_handle_connection (str_codes "SSH-2.0-OpenSSH_8.9") []).length :=
  ⟨⟨by decide, by decide⟩,
   utf8_first_chunk_logs_attack (str_codes "SSH-2.0-OpenSSH_8.9") []
     (by decide) (by decide)⟩

/-- ConnectionTracker (server.py lines 189-210).  connections_by_ip is a
Python dict modelled extensionally as a total function with default 0,
matching how the code reads it (connections_by_ip.get(ip, 0)). -/
structure ConnectionTracker where
  connections_total : Int
  connections_active : Int
  connections_by_ip : String → Int
  attacks_logged : Int

/-- The tracker constructed by ConnectionTracker.__init__ (the module-level
connection_tracker instance): all counters zero, empty dict. -/
def connection_tracker_init : ConnectionTracker :=
  { connections_total := 0
    connections_active := 0
    connections_by_ip := fun _ => 0
    attacks_logged := 0 }

/-- ConnectionTracker.add_connection (server.py lines 198-202). -/
def add_connection (t : ConnectionTracker) (ip : String) : ConnectionTracker :=
  { t with
    connections_total := t.connections_total + 1
    connections_active := t.connections_active + 1
    connections_by_ip := fun x =>
      if x = ip then t.connections_by_ip ip + 1 else t.connections_by_ip x }

/-- ConnectionTracker.remove_connection (server.py lines 204-206): only
connections_active changes, clamped at 0 with max. -/
def remove_connection (t : ConnectionTracker) (ip : String) : ConnectionTracker :=
  { t with connections_active := max 0 (t.connections_active - 1) }

/-- ConnectionTracker.log_attack (server.py lines 208-210). -/
def tracker_log_attack (t : ConnectionTracker) : ConnectionTracker :=
  { t with attacks_logged := t.attacks_logged + 1 }

/-- A call into the tracker from some connection-handling unit. -/
inductive TrackerOp where
  | add : String → TrackerOp
  | remove : String → TrackerOp
deriving DecidableEq

def tracker_step (t : ConnectionTracker) : TrackerOp → ConnectionTracker
  | TrackerOp.add ip => add_connection t ip
  | TrackerOp.remove ip => remove_connection t ip

/-- Any interleaving of add_connection / remove_connection calls, applied
in the order the tracker serialises them. -/
def tracker_run (t : ConnectionTracker) (ops : List TrackerOp) :
    ConnectionTracker :=
  ops.foldl tracker_step t

theorem tracker_step_active_nonneg (t : ConnectionTracker) (op : TrackerOp)
    (h : 0 ≤ t.connections_active) :
    0 ≤ (tracker_step t op).connections_active := by
  cases op with
  | add ip => simpa [tracker_step, add_connection] using by omega
  | remove ip => simp [tracker_step, remove_connection]

theorem tracker_run_active_nonneg (t : ConnectionTracker)
    (ops : List TrackerOp) (h : 0 ≤ t.connections_active) :
    0 ≤ (tracker_run t ops).connections_active := by
  induction ops generalizing t with
  | nil => exact h
  | cons op ops ih =>
      exact ih (tracker_step t op) (tracker_step_active_nonneg t op h)

theorem tracker_step_by_ip_mono (t : ConnectionTracker) (op : TrackerOp)
    (ip : String) :
    t.connections_by_ip ip ≤ (tracker_step t op).connections_by_ip ip := by
  cases op with
  | add ip2 =>
      simp only [tracker_step, add_connection]
      by_cases h : ip = ip2 <;> simp [h] <;> omega
  | remove ip2 => simp [tracker_step, remove_connection]

theorem tracker_run_by_ip_mono (t : ConnectionTracker) (ops : List TrackerOp)
    (ip : String) :
    t.connections_by_ip ip ≤ (tracker_run t ops).connections_by_ip ip := by
  induction ops generalizing t with
  | nil => exact le_refl _
  | cons op ops ih =>
      exact le_trans (tracker_step_by_ip_mono t op ip) (ih (tracker_step t op))

/-- C10.  remove_connection clamps connections_active at 0 — starting
from the freshly constructed tracker, no interleaving of
add_connection / remove_connection calls ever drives it negative — and it
leaves connections_total, attacks_logged and every per-IP count unchanged;
the per-IP counts never decrease under any interleaving of
add_connection / remove_connection calls, so they record cumulative, not
active, connections per source IP. -/
theorem connection_tracker_clamp_and_frame (t : ConnectionTracker)
    (ops : List TrackerOp) (ip ip2 : String) :
    0 ≤ (tracker_run connection_tracker_init ops).connections_active ∧
    (remove_connection t ip).connections_total = t.connections_total ∧
    (remove_connection t ip).attacks_logged = t.attacks_logged ∧
    (remove_connection t ip).connections_by_ip ip2 = t.connections_by_ip ip2 ∧
    t.connections_by_ip ip2 ≤ (tracker_run t ops).connections_by_ip ip2 := by
  refine ⟨tracker_run_active_nonneg _ ops (by simp [connection_tracker_init]),
    ?_, ?_, ?_, tracker_run_by_ip_mono t ops ip2⟩ <;>
    simp [remove_connection]
